import Mathlib

/-!
Verification of the CV-analysis pipeline of tekdi/frappe-hrms-tools.

The Python sources under `services/hrms-tools/app` (prompt manager, LLM
factory, response parser, audit logger, document parser, orchestrator) and
`frappe-apps/cv_analyzer` (position framework doctype) are shallowly
embedded below.  Python strings are modelled as `List Char` where character
level operations matter and as `String` where only concatenation matters;
machine integers are `Int`/`Nat`; fallible code returns `Except`/`Option`;
the sqlite audit store is an explicit in-memory state.
-/

set_option maxRecDepth 10000

/-- Characters Python's `str.strip()` removes (ASCII whitespace subset). -/
def isPySpace (c : Char) : Bool :=
  c = ' ' || c = '\t' || c = '\n' || c = '\r' || c = '\x0b' || c = '\x0c'

/-- Model of Python `s.lstrip()`. -/
def pyLstrip (s : List Char) : List Char := s.dropWhile isPySpace

/-- Model of Python `s.rstrip()`. -/
def pyRstrip (s : List Char) : List Char := (s.reverse.dropWhile isPySpace).reverse

/-- Model of Python `s.strip()`. -/
def pyStrip (s : List Char) : List Char := pyRstrip (pyLstrip s)

/-- Model of Python `s.strip()` on `String` values. -/
def pyStripS (s : String) : String := String.mk (pyStrip s.data)

/-- Model of Python `s.split()` with no argument: split on whitespace runs,
dropping empty fragments.  `acc` carries the current word reversed. -/
def pySplitAux : List Char → List Char → List (List Char)
  | [], acc => if acc = [] then [] else [acc.reverse]
  | c :: cs, acc =>
    if isPySpace c then
      if acc = [] then pySplitAux cs [] else acc.reverse :: pySplitAux cs []
    else pySplitAux cs (c :: acc)

/-- Model of Python `s.split()`. -/
def pySplit (s : List Char) : List (List Char) := pySplitAux s []

/-- Index of the first newline, modelling Python `s.find('\n')`
(`none` models the return value `-1`). -/
def findNl : List Char → Option Nat
  | [] => none
  | c :: cs => if c = '\n' then some 0 else (findNl cs).map (· + 1)

/-- The backquote character, written via its code point. -/
def backquote : Char := Char.ofNat 96

/-- The left-brace character, written via its code point. -/
def lbrace : Char := Char.ofNat 123

/-- The right-brace character, written via its code point. -/
def rbrace : Char := Char.ofNat 125

/-- Model of Python `s.startswith('\x60\x60\x60')` (three backquotes). -/
def startsWithFence (s : List Char) : Bool :=
  match s with
  | a :: b :: c :: _ => a = backquote && b = backquote && c = backquote
  | _ => false

/-- Model of Python `s.endswith('\x60\x60\x60')` (three backquotes). -/
def endsWithFence (s : List Char) : Bool := startsWithFence s.reverse

/-- Association-list lookup modelling Python dict access by key. -/
def assocLookup {α : Type} : List (String × α) → String → Option α
  | [], _ => none
  | (k2, v) :: t, k => if k2 = k then some v else assocLookup t k

/-- JSON values, the shape `json.loads` can return.  Numeric literals are
modelled by their integer value (the pipeline's schema uses integral
scores; fractional literals are outside the model and fail to parse). -/
inductive Json where
  | null : Json
  | bool (b : Bool) : Json
  | num (n : Int) : Json
  | str (s : String) : Json
  | arr (xs : List Json) : Json
  | obj (kvs : List (String × Json)) : Json
  deriving Repr

/-- Whitespace accepted between JSON tokens by `json.loads`. -/
def jsonWs (c : Char) : Bool := c = ' ' || c = '\t' || c = '\n' || c = '\r'

/-- Translation of a JSON string escape character. -/
def escChar (c : Char) : Option Char :=
  if c = '"' then some '"'
  else if c = '\\' then some '\\'
  else if c = '/' then some '/'
  else if c = 'n' then some '\n'
  else if c = 't' then some '\t'
  else if c = 'r' then some '\r'
  else if c = 'b' then some '\x08'
  else if c = 'f' then some '\x0c'
  else none

/-- Parse the body of a JSON string literal after the opening quote,
returning the decoded characters and the remaining input. -/
def parseStrBody : Nat → List Char → Option (List Char × List Char)
  | 0, _ => none
  | Nat.succ f, s =>
    match s with
    | [] => none
    | c :: cs =>
      if c = '"' then some ([], cs)
      else if c = '\\' then
        match cs with
        | [] => none
        | e :: cs2 =>
          match escChar e with
          | none => none
          | some d => (parseStrBody f cs2).map (fun p => (d :: p.1, p.2))
      else (parseStrBody f cs).map (fun p => (c :: p.1, p.2))

/-- Consume a run of decimal digits, accumulating their value. -/
def parseDigits : Nat → List Char → Nat × List Char
  | acc, [] => (acc, [])
  | acc, c :: cs =>
    if c.isDigit then parseDigits (acc * 10 + (c.toNat - 48)) cs else (acc, c :: cs)

/-- Parse a JSON integer literal (optional minus sign then digits); a
following `.`, `e` or `E` is a fractional literal, outside the model. -/
def parseNum (s : List Char) : Option (Json × List Char) :=
  match s with
  | '-' :: c :: cs =>
    if c.isDigit then
      let p := parseDigits (c.toNat - 48) cs
      match p.2 with
      | d :: _ => if d = '.' || d = 'e' || d = 'E' then none else some (Json.num (-(p.1 : Int)), p.2)
      | [] => some (Json.num (-(p.1 : Int)), p.2)
    else none
  | c :: cs =>
    if c.isDigit then
      let p := parseDigits (c.toNat - 48) cs
      match p.2 with
      | d :: _ => if d = '.' || d = 'e' || d = 'E' then none else some (Json.num (p.1 : Int), p.2)
      | [] => some (Json.num (p.1 : Int), p.2)
    else none
  | [] => none

mutual

/-- Fuel-indexed recursive-descent parser for one JSON value, modelling
`json.loads`'s grammar on the integer-literal subset. -/
def parseJsonVal : Nat → List Char → Option (Json × List Char)
  | 0, _ => none
  | Nat.succ f, s =>
    match s.dropWhile jsonWs with
    | 'n' :: 'u' :: 'l' :: 'l' :: r => some (Json.null, r)
    | 't' :: 'r' :: 'u' :: 'e' :: r => some (Json.bool true, r)
    | 'f' :: 'a' :: 'l' :: 's' :: 'e' :: r => some (Json.bool false, r)
    | '"' :: r => (parseStrBody (Nat.succ f) r).map (fun p => (Json.str (String.mk p.1), p.2))
    | '[' :: r =>
      (match r.dropWhile jsonWs with
       | ']' :: r2 => some (Json.arr [], r2)
       | s2 => (parseArrItems f s2).map (fun p => (Json.arr p.1, p.2)))
    | c :: r =>
      if c = lbrace then
        match r.dropWhile jsonWs with
        | [] => none
        | c2 :: r2 =>
          if c2 = rbrace then some (Json.obj [], r2)
          else (parseObjItems f (c2 :: r2)).map (fun p => (Json.obj p.1, p.2))
      else if c.isDigit || c = '-' then parseNum (c :: r)
      else none
    | [] => none

/-- Parse the comma-separated items of a non-empty JSON array. -/
def parseArrItems : Nat → List Char → Option (List Json × List Char)
  | 0, _ => none
  | Nat.succ f, s =>
    match parseJsonVal f s with
    | none => none
    | some (v, r) =>
      match r.dropWhile jsonWs with
      | ',' :: r2 => (parseArrItems f r2).map (fun p => (v :: p.1, p.2))
      | ']' :: r2 => some ([v], r2)
      | _ => none

/-- Parse the comma-separated members of a non-empty JSON object. -/
def parseObjItems : Nat → List Char → Option (List (String × Json) × List Char)
  | 0, _ => none
  | Nat.succ f, s =>
    match s.dropWhile jsonWs with
    | '"' :: r =>
      (match parseStrBody (Nat.succ f) r with
       | none => none
       | some (key, r2) =>
         match r2.dropWhile jsonWs with
         | ':' :: r3 =>
           (match parseJsonVal f r3 with
            | none => none
            | some (v, r4) =>
              match r4.dropWhile jsonWs with
              | ',' :: r5 => (parseObjItems f r5).map (fun p => ((String.mk key, v) :: p.1, p.2))
              | c :: r5 => if c = rbrace then some ([(String.mk key, v)], r5) else none
              | [] => none)
         | _ => none)
    | _ => none

end

/-- Model of `json.loads`: parse one value and require only whitespace
after it. -/
def jsonLoads (s : List Char) : Option Json :=
  match parseJsonVal (s.length + 1) s with
  | some (v, r) => if r.dropWhile jsonWs = [] then some v else none
  | none => none

/-!
Embedding of `app/core/prompt_manager.py` (`PromptManager`).
-/

/-- Error raised by `PromptManager.get_prompt` for an unknown version:
`ValueError("Prompt version '{version}' not found. Available versions:
{available}")`, modelled structurally by the interpolated data. -/
structure PromptVersionError where
  version : String
  available : List String
  deriving DecidableEq, Repr

/-- Embedding of `PromptManager.get_prompt`: the loaded template cache
(`_prompts_cache`) is passed explicitly as an association list in insertion
order; lookup tries `"{version}_analysis"`, then the exact `version`, and
otherwise fails listing the available version tags. -/
def get_prompt (cache : List (String × String)) (version : String) :
    Except PromptVersionError String :=
  let prompt_key := version ++ "_analysis"
  match assocLookup cache prompt_key with
  | some t => Except.ok t
  | none =>
    match assocLookup cache version with
    | some t => Except.ok t
    | none => Except.error ⟨version, cache.map Prod.fst⟩

/-- The `position_framework` dict argument of `build_analysis_prompt`
(`model_dump()` of `PositionFramework`); `Option` models `.get` on a
possibly missing key, and `scoring_weights` keeps dict insertion order. -/
structure PFDict where
  role_title : Option String := none
  key_requirements : Option (List String) := none
  scoring_weights : Option (List (String × Int)) := none
  must_have_skills : Option (List String) := none
  nice_to_have_skills : Option (List String) := none

/-- The `company_criteria` dict argument of `build_analysis_prompt`
(`model_dump()` of `CompanyCriteria`). -/
structure CCDict where
  company_name : Option String := none
  values : Option (List String) := none
  evaluation_guidelines : Option String := none
  disqualifiers : Option (List String) := none

/-- Model of Python `s.replace('_', ' ')`. -/
def pyReplaceUnderscore (s : List Char) : List Char :=
  s.map (fun c => if c = '_' then ' ' else c)

/-- Model of Python `s.title()`: an alphabetic character directly after an
alphabetic character is lowercased, any other alphabetic character is
uppercased. -/
def pyTitleAux : Bool → List Char → List Char
  | _, [] => []
  | prevAlpha, c :: cs =>
    if c.isAlpha then (if prevAlpha then c.toLower else c.toUpper) :: pyTitleAux true cs
    else c :: pyTitleAux false cs

/-- Model of Python `s.title()`. -/
def pyTitle (s : List Char) : List Char := pyTitleAux false s

/-- The `requirements_text` local of `build_analysis_prompt`:
newline-join of `"- {req}"` over `position_framework.get('key_requirements', [])`. -/
def requirements_text (pf : PFDict) : String :=
  String.intercalate "\n" ((pf.key_requirements.getD []).map (fun req => "- " ++ req))

/-- The `must_have` local: comma-join of `must_have_skills`. -/
def must_have (pf : PFDict) : String :=
  String.intercalate ", " (pf.must_have_skills.getD [])

/-- The `nice_to_have` local: comma-join of `nice_to_have_skills`. -/
def nice_to_have (pf : PFDict) : String :=
  String.intercalate ", " (pf.nice_to_have_skills.getD [])

/-- The `values_text` local: comma-join of `company_criteria.get('values', [])`. -/
def values_text (cc : CCDict) : String :=
  String.intercalate ", " (cc.values.getD [])

/-- The `weights_text` local: newline-join of
`"- {section.replace('_', ' ').title()}: {weight}%"` over the
`scoring_weights` dict items. -/
def weights_text (pf : PFDict) : String :=
  String.intercalate "\n" ((pf.scoring_weights.getD []).map
    (fun p => "- " ++ String.mk (pyTitle (pyReplaceUnderscore p.1.data)) ++ ": " ++ toString p.2 ++ "%"))

/-- The `Role:` slot of the user prompt:
`position_framework.get('role_title', 'Not specified')`. -/
def renderedRole (pf : PFDict) : String := pf.role_title.getD "Not specified"

/-- The `Key Requirements:` slot:
`requirements_text if requirements_text else 'Not specified'`. -/
def renderedRequirements (pf : PFDict) : String :=
  if requirements_text pf ≠ "" then requirements_text pf else "Not specified"

/-- The `Must-Have Skills:` slot: `must_have if must_have else 'Not specified'`. -/
def renderedMustHave (pf : PFDict) : String :=
  if must_have pf ≠ "" then must_have pf else "Not specified"

/-- The `Nice-to-Have Skills:` slot:
`nice_to_have if nice_to_have else 'Not specified'`. -/
def renderedNiceToHave (pf : PFDict) : String :=
  if nice_to_have pf ≠ "" then nice_to_have pf else "Not specified"

/-- The `Company:` slot: `company_criteria.get('company_name', 'Not specified')`. -/
def renderedCompany (cc : CCDict) : String := cc.company_name.getD "Not specified"

/-- The `Core Values:` slot: `values_text if values_text else 'Not specified'`. -/
def renderedValues (cc : CCDict) : String :=
  if values_text cc ≠ "" then values_text cc else "Not specified"

/-- The `Evaluation Guidelines:` slot:
`company_criteria.get('evaluation_guidelines', 'Not specified')` — note the
fallback fires only on a missing key, a present empty string is rendered
as-is. -/
def renderedGuidelines (cc : CCDict) : String :=
  cc.evaluation_guidelines.getD "Not specified"

/-- The `Disqualifiers:` slot: `', '.join(company_criteria.get('disqualifiers', []))
if company_criteria.get('disqualifiers') else 'None specified'` — the
truthiness test is on the list, and the fallback literal is
`'None specified'`. -/
def renderedDisqualifiers (cc : CCDict) : String :=
  match cc.disqualifiers with
  | some l => if l ≠ [] then String.intercalate ", " l else "None specified"
  | none => "None specified"

/-- The `system_prompt` literal of `build_analysis_prompt`. -/
def system_prompt : String :=
  "You are an expert HR analyst specializing in candidate evaluation.\nYour task is to analyze CVs objectively and provide structured, data-driven assessments.\n\nIMPORTANT: You must respond with valid JSON only. Do not include any text outside the JSON structure.\n\nThe JSON response must have this exact structure:\n\x7b\n  \"overall_score\": <number 0-100>,\n  \"recommendation\": \"<strong_yes|yes|maybe|no|strong_no>\",\n  \"section_scores\": [\n    \x7b\n      \"section\": \"<section name>\",\n      \"score\": <number 0-100>,\n      \"weight\": <number 0-100>,\n      \"weighted_score\": <calculated: score * weight / 100>,\n      \"rationale\": \"<detailed explanation>\"\n    \x7d\n  ],\n  \"key_strengths\": [\"<strength 1>\", \"<strength 2>\", ...],\n  \"critical_gaps\": [\"<gap 1>\", \"<gap 2>\", ...],\n  \"follow_up_questions\": [\"<question 1>\", \"<question 2>\", ...]\n\x7d\n\nBe objective, thorough, and ensure all scores are justified with clear rationale."

/-- The `user_prompt` f-string of `build_analysis_prompt`, with each
interpolation hole named by the `rendered…`/`…_text` definition that
transcribes the hole's expression. -/
def user_prompt (cv_text : String) (pf : PFDict) (cc : CCDict) (analysis_depth : String) : String :=
  "Analyze the following CV against the position requirements and company criteria.\n\n=== POSITION INFORMATION ===\nRole: " ++ renderedRole pf
  ++ "\n\nKey Requirements:\n" ++ renderedRequirements pf
  ++ "\n\nMust-Have Skills: " ++ renderedMustHave pf
  ++ "\nNice-to-Have Skills: " ++ renderedNiceToHave pf
  ++ "\n\nScoring Weights:\n" ++ weights_text pf
  ++ "\n\n=== COMPANY CRITERIA ===\nCompany: " ++ renderedCompany cc
  ++ "\nCore Values: " ++ renderedValues cc
  ++ "\n\nEvaluation Guidelines:\n" ++ renderedGuidelines cc
  ++ "\n\nDisqualifiers:\n" ++ renderedDisqualifiers cc
  ++ "\n\n=== CANDIDATE CV ===\n" ++ cv_text
  ++ "\n\n=== ANALYSIS INSTRUCTIONS ===\n1. Evaluate the candidate across all scoring dimensions (Technical Skills, Experience, Education, Cultural Fit)\n2. Calculate weighted scores based on the provided weights\n3. Identify 3-5 key strengths with specific evidence from the CV\n4. Identify 2-4 critical gaps or concerns\n5. Generate 4-6 thoughtful follow-up interview questions\n6. Provide an overall recommendation (strong_yes, yes, maybe, no, or strong_no)\n\nAnalysis Depth: " ++ analysis_depth
  ++ "\n\nRespond with ONLY the JSON structure specified in the system prompt."

/-- Embedding of `PromptManager.build_analysis_prompt`: returns the pair
`(system_prompt, user_prompt)`; note it takes no version argument and
never fails. -/
def build_analysis_prompt (cv_text : String) (pf : PFDict) (cc : CCDict)
    (analysis_depth : String) : String × String :=
  (system_prompt, user_prompt cv_text pf cc analysis_depth)

/-!
Embedding of `app/models/request.py` (`ScoringWeights`) and of
`frappe-apps/.../position_evaluation_framework.py`
(`PositionEvaluationFramework.validate`).
-/

/-- The `ScoringWeights` pydantic model's four named percentages. -/
structure ScoringWeights where
  technical_skills : Int
  experience : Int
  education : Int
  cultural_fit : Int
  deriving DecidableEq, Repr

/-- The `validate_weights` field validator (and the coinciding
`Field(ge=0, le=100)` constraint): a weight outside `[0, 100]` raises
`ValueError("Weight must be between 0 and 100")`. -/
def validate_weights (v : Int) : Except String Int :=
  if 0 ≤ v ∧ v ≤ 100 then Except.ok v
  else Except.error "Weight must be between 0 and 100"

/-- Pydantic construction of `ScoringWeights`: every field runs
`validate_weights`; no cross-field (sum) constraint exists on the model. -/
def mkScoringWeights (t e ed c : Int) : Except String ScoringWeights := do
  let t ← validate_weights t
  let e ← validate_weights e
  let ed ← validate_weights ed
  let c ← validate_weights c
  Except.ok ⟨t, e, ed, c⟩

/-- Embedding of `PositionEvaluationFramework.validate` (frappe doctype):
sums the four weight fields with `or 0` None-coalescing and, when the total
differs from 100, emits a `frappe.msgprint` warning (indicator orange, a
non-blocking message).  The returned list holds the messages shown; the
method never raises, so validation always passes. -/
def framework_validate (technical_skills_weight experience_weight education_weight
    cultural_fit_weight : Option Int) : List String :=
  let total_weight := technical_skills_weight.getD 0 + experience_weight.getD 0
    + education_weight.getD 0 + cultural_fit_weight.getD 0
  if total_weight ≠ 100 then
    ["Warning: Scoring weights should add up to 100%. Current total: "
      ++ toString total_weight ++ "%"]
  else []

/-!
Embedding of `app/models/response.py` and of
`CVAnalyzer._parse_llm_response` / `CVAnalyzer._build_response`
(`app/services/cv_analyzer.py`).
-/

/-- The `RecommendationType` str-enum. -/
inductive RecommendationType where
  | strong_yes : RecommendationType
  | yes : RecommendationType
  | maybe : RecommendationType
  | no : RecommendationType
  | strong_no : RecommendationType
  deriving DecidableEq, Repr

/-- `RecommendationType(value)`: succeeds exactly on the five enum values,
otherwise Python raises `ValueError`. -/
def recommendationOfString (s : String) : Option RecommendationType :=
  if s = "strong_yes" then some RecommendationType.strong_yes
  else if s = "yes" then some RecommendationType.yes
  else if s = "maybe" then some RecommendationType.maybe
  else if s = "no" then some RecommendationType.no
  else if s = "strong_no" then some RecommendationType.strong_no
  else none

/-- The `SectionScore` pydantic model; the source field `section` is named
`section_name` here because `section` is a Lean keyword. -/
structure SectionScore where
  section_name : String
  score : Int
  weight : Int
  weighted_score : Int
  rationale : String
  deriving DecidableEq, Repr

/-- The `AnalysisMetadata` pydantic model. -/
structure AnalysisMetadata where
  llm_provider : String
  model : String
  prompt_version : String
  tokens_used : Option Int
  processing_time_ms : Int
  cv_pages : Option Int
  deriving DecidableEq, Repr

/-- The `CVAnalysisResponse` pydantic model (the `timestamp` wall-clock
field is outside the model). -/
structure CVAnalysisResponse where
  analysis_id : String
  overall_score : Int
  recommendation : RecommendationType
  section_scores : List SectionScore
  key_strengths : List String
  critical_gaps : List String
  follow_up_questions : List String
  metadata : AnalysisMetadata
  deriving DecidableEq, Repr

/-- The `required_fields` list of `_parse_llm_response`, in source order. -/
def required_fields : List String :=
  ["overall_score", "recommendation", "section_scores",
   "key_strengths", "critical_gaps", "follow_up_questions"]

/-- Python `field in result` for a dict result: key membership. -/
def hasField (kvs : List (String × Json)) (k : String) : Bool :=
  kvs.any (fun p => p.1 = k)

/-- The first required field missing from a parsed object, in the loop
order of `_parse_llm_response`. -/
def firstMissingField (kvs : List (String × Json)) : Option String :=
  required_fields.find? (fun f => !(hasField kvs f))

/-- Python `field in result` for a list result: element membership. -/
def arrContainsStr (xs : List Json) (k : String) : Bool :=
  xs.any (fun x => match x with | Json.str s => s = k | _ => false)

/-- Failure modes of `_parse_llm_response`:  `invalidJson` is the
`json.JSONDecodeError` handler's `CVAnalyzerError("LLM did not return
valid JSON. Please try again.")`; `missingField f` is
`CVAnalyzerError("Missing required field in LLM response: {f}")`;
`typeError` is the `TypeError` Python raises for `field not in result`
when `result` is a scalar. -/
inductive LLMParseError where
  | invalidJson : LLMParseError
  | missingField (f : String) : LLMParseError
  | typeError : LLMParseError
  deriving DecidableEq, Repr

/-- The content-cleaning steps of `_parse_llm_response`: strip surrounding
whitespace; when the result starts with a three-backquote fence, drop
through the first newline (if any), and when the result of that ends with
a fence, drop the last three characters and right-strip. -/
def cleanContent (llm_content : List Char) : List Char :=
  let cleaned := pyStrip llm_content
  if startsWithFence cleaned then
    let cleaned2 :=
      match findNl cleaned with
      | some first_newline => cleaned.drop (first_newline + 1)
      | none => cleaned
    if endsWithFence cleaned2 then pyRstrip ((cleaned2.reverse.drop 3).reverse)
    else cleaned2
  else cleaned

/-- The required-field loop of `_parse_llm_response`, on whatever value
`json.loads` returned. -/
def checkFields (j : Json) : Except LLMParseError Json :=
  match j with
  | Json.obj kvs =>
    match firstMissingField kvs with
    | some f => Except.error (LLMParseError.missingField f)
    | none => Except.ok j
  | Json.arr xs =>
    match required_fields.find? (fun f => !(arrContainsStr xs f)) with
    | some f => Except.error (LLMParseError.missingField f)
    | none => Except.ok j
  | _ => Except.error LLMParseError.typeError

/-- Embedding of `CVAnalyzer._parse_llm_response`: clean the raw provider
content, parse it as JSON, then verify the six required top-level keys. -/
def _parse_llm_response (llm_content : List Char) : Except LLMParseError Json :=
  match jsonLoads (cleanContent llm_content) with
  | none => Except.error LLMParseError.invalidJson
  | some result => checkFields result

/-- Pydantic coercion of a JSON value to a `str` field. -/
def jStr : Json → Option String
  | Json.str s => some s
  | _ => none

/-- Pydantic coercion of a JSON value to an unconstrained numeric field. -/
def jNum : Json → Option Int
  | Json.num n => some n
  | _ => none

/-- Pydantic coercion of a JSON value to a numeric field carrying
`Field(ge=lo, le=hi)` bounds. -/
def jNumInRange (lo hi : Int) (j : Json) : Option Int :=
  match j with
  | Json.num n => if lo ≤ n ∧ n ≤ hi then some n else none
  | _ => none

/-- Pydantic coercion of a JSON value to a `List[str]` field. -/
def jStrList : Json → Option (List String)
  | Json.arr xs => xs.mapM jStr
  | _ => none

/-- `SectionScore(**section)`: pydantic construction from one parsed
section entry, with the `ge=0, le=100` bounds on `score` and `weight`. -/
def parseSectionScore (j : Json) : Option SectionScore :=
  match j with
  | Json.obj kvs => do
    let sec ← assocLookup kvs "section" >>= jStr
    let sc ← assocLookup kvs "score" >>= jNumInRange 0 100
    let w ← assocLookup kvs "weight" >>= jNumInRange 0 100
    let ws ← assocLookup kvs "weighted_score" >>= jNum
    let rat ← assocLookup kvs "rationale" >>= jStr
    some ⟨sec, sc, w, ws, rat⟩
  | _ => none

/-- Embedding of `CVAnalyzer._build_response`: construct the
`CVAnalysisResponse` from the parsed LLM result; any pydantic or enum
`ValueError` (modelled by `none`) propagates to `analyze`'s generic
exception handler. -/
def _build_response (analysis_id : String) (analysis_result : List (String × Json))
    (llm_provider llm_model prompt_version : String) (tokens_used : Option Int)
    (processing_time_ms : Int) (page_count : Int) : Option CVAnalysisResponse :=
  match assocLookup analysis_result "section_scores" with
  | none => none
  | some ssj =>
    match ssj with
    | Json.arr ssJson =>
      match ssJson.mapM parseSectionScore with
      | none => none
      | some section_scores =>
        match (assocLookup analysis_result "overall_score").bind (jNumInRange 0 100) with
        | none => none
        | some overall_score =>
          match (assocLookup analysis_result "recommendation").bind jStr with
          | none => none
          | some recStr =>
            match recommendationOfString recStr with
            | none => none
            | some recommendation =>
              match (assocLookup analysis_result "key_strengths").bind jStrList with
              | none => none
              | some key_strengths =>
                match (assocLookup analysis_result "critical_gaps").bind jStrList with
                | none => none
                | some critical_gaps =>
                  match (assocLookup analysis_result "follow_up_questions").bind jStrList with
                  | none => none
                  | some follow_up_questions =>
                    let metadata : AnalysisMetadata :=
                      { llm_provider := llm_provider, model := llm_model,
                        prompt_version := prompt_version, tokens_used := tokens_used,
                        processing_time_ms := processing_time_ms,
                        cv_pages := some page_count }
                    some { analysis_id := analysis_id, overall_score := overall_score,
                           recommendation := recommendation,
                           section_scores := section_scores,
                           key_strengths := key_strengths,
                           critical_gaps := critical_gaps,
                           follow_up_questions := follow_up_questions,
                           metadata := metadata }
    | _ => none

/-!
Embedding of `app/core/llm_factory.py` (`LLMFactory`) and
`app/llm_providers/base.py`.
-/

/-- One constructed provider instance: its `get_provider_name()` value and
its `is_available()` answer. -/
structure ProviderState where
  provider_name : String
  available : Bool
  deriving DecidableEq, Repr

/-- The factory's state: `_providers` (a dict in construction order, so an
ordered association list) and `settings.DEFAULT_LLM_PROVIDER`. -/
structure LLMFactoryState where
  providers : List (String × ProviderState)
  default_llm_provider : String
  deriving DecidableEq, Repr

/-- `LLMProviderError(provider, message)` variants, by raise site:
`notAvailable` is `get_provider`'s "Provider '{name}' not available.
Available providers: {available}"; `notConfigured` is its "Provider
'{name}' is not properly configured"; `noProviders` is the auto-selection
"No LLM providers are configured..."; `callFailed` models the concrete
providers' wrapped remote-call failures. -/
inductive LLMProviderError where
  | notAvailable (provider : String) (available : List String) : LLMProviderError
  | notConfigured (provider : String) : LLMProviderError
  | noProviders : LLMProviderError
  | callFailed (provider : String) (message : String) : LLMProviderError
  deriving DecidableEq, Repr

/-- The tail of `LLMFactory.get_provider` once a concrete name is fixed:
dict membership check (failing with the available list), then the
`is_available()` check. -/
def get_provider_named (f : LLMFactoryState) (name : String) :
    Except LLMProviderError ProviderState :=
  match assocLookup f.providers name with
  | none => Except.error (LLMProviderError.notAvailable name (f.providers.map Prod.fst))
  | some provider =>
    if provider.available then Except.ok provider
    else Except.error (LLMProviderError.notConfigured name)

/-- Embedding of `LLMFactory.get_provider`: a `None` or falsy-or-`"auto"`
name is replaced by the configured default; a still-`"auto"` name picks the
first constructed provider (raising `noProviders` if there is none); then
the named lookup and availability check run. -/
def get_provider (f : LLMFactoryState) (provider_name : Option String) :
    Except LLMProviderError ProviderState :=
  let n1 :=
    match provider_name with
    | none => f.default_llm_provider
    | some s => if s = "" || s = "auto" then f.default_llm_provider else s
  if n1 = "auto" then
    match f.providers with
    | [] => Except.error LLMProviderError.noProviders
    | (k, _) :: _ => get_provider_named f k
  else get_provider_named f n1

/-- `LLMResponse` of `app/llm_providers/base.py` (the `raw_response`
diagnostic payload is outside the model). -/
structure LLMResponse where
  content : List Char
  model : String
  tokens_used : Option Int := none
  finish_reason : Option String := none
  deriving DecidableEq, Repr

/-!
Embedding of `app/services/audit_logger.py` (`AuditLogger`), with the
sqlite store as explicit state.
-/

/-- The `.value` of a `RecommendationType` member. -/
def recommendationValue : RecommendationType → String
  | RecommendationType.strong_yes => "strong_yes"
  | RecommendationType.yes => "yes"
  | RecommendationType.maybe => "maybe"
  | RecommendationType.no => "no"
  | RecommendationType.strong_no => "strong_no"

/-- `CVAnalyzerError` as raised by `CVAnalyzer.analyze`'s three handlers:
`documentParsing` wraps a `DocumentParserError` message ("Failed to parse
CV document: ..."), `llmProvider` wraps an `LLMProviderError` ("LLM
analysis failed: ..."), and the generic `except Exception` handler
("Analysis failed: ...") wraps either a `_parse_llm_response` failure
(`unexpectedParse`) or a `_build_response` pydantic/enum failure
(`unexpectedBuild`). -/
inductive CVAnalyzerError where
  | documentParsing (message : String) : CVAnalyzerError
  | llmProvider (e : LLMProviderError) : CVAnalyzerError
  | unexpectedParse (e : LLMParseError) : CVAnalyzerError
  | unexpectedBuild : CVAnalyzerError
  deriving DecidableEq, Repr

/-- One row of the `cv_analysis_logs` table, with the columns
`log_analysis` writes (`timestamp`/`created_at` wall-clock columns are
outside the model; `error_message` keeps the logged exception
structurally rather than as its rendered string). -/
structure LogRow where
  analysis_id : String
  cv_filename : String
  position_title : String
  company_name : String
  llm_provider : String
  llm_model : String
  prompt_version : String
  tokens_used : Option Int
  processing_time_ms : Int
  overall_score : Option Int
  recommendation : Option String
  status : String
  error_message : Option CVAnalyzerError
  deriving DecidableEq, Repr

/-- One row of the `token_usage` table, unique per `(date, llm_provider)`. -/
structure UsageRow where
  date : String
  llm_provider : String
  total_tokens : Int
  request_count : Int
  deriving DecidableEq, Repr

/-- The audit sqlite database state. -/
structure AuditDb where
  cv_analysis_logs : List LogRow
  token_usage : List UsageRow
  deriving DecidableEq, Repr

/-- Python truthiness of the `tokens_used` value: `None` and `0` are
falsy. -/
def pyTruthyTokens : Option Int → Bool
  | none => false
  | some t => t != 0

/-- Embedding of `AuditLogger._update_token_usage`: the
`INSERT ... ON CONFLICT(date, llm_provider) DO UPDATE` upsert — add to the
existing `(today, provider)` row, or insert a fresh row with
`request_count = 1`. -/
def _update_token_usage (db : AuditDb) (today : String) (llm_provider : String)
    (tokens : Int) : AuditDb :=
  if db.token_usage.any (fun r => r.date = today && r.llm_provider = llm_provider) then
    { db with token_usage := db.token_usage.map (fun r =>
        if r.date = today && r.llm_provider = llm_provider then
          { r with total_tokens := r.total_tokens + tokens,
                   request_count := r.request_count + 1 }
        else r) }
  else
    { db with token_usage := db.token_usage ++
        [{ date := today, llm_provider := llm_provider,
           total_tokens := tokens, request_count := 1 }] }

/-- Embedding of `AuditLogger.log_analysis`: the `INSERT` into
`cv_analysis_logs` raises `sqlite3.IntegrityError` on a duplicate
`analysis_id` (UNIQUE column), which the method catches and logs, leaving
the store unchanged and the token-usage update unreached; on a fresh id
the row is appended and, when `tokens_used` is truthy and the status is
`"success"`, the daily aggregate is upserted.  Every exception is caught
inside the method, so it never raises and is modelled as a total state
transformer. -/
def log_analysis (db : AuditDb) (today : String) (row : LogRow) : AuditDb :=
  if db.cv_analysis_logs.any (fun r => r.analysis_id = row.analysis_id) then db
  else
    let db1 := { db with cv_analysis_logs := db.cv_analysis_logs ++ [row] }
    if pyTruthyTokens row.tokens_used && row.status = "success" then
      match row.tokens_used with
      | some tokens => _update_token_usage db1 today row.llm_provider tokens
      | none => db1
    else db1

/-!
Embedding of `app/services/document_parser.py` (`DocumentParser._parse_docx`).
-/

/-- A Word-processor document as python-docx presents it: paragraph texts,
and tables of rows of cell texts. -/
structure DocxDocument where
  paragraphs : List String
  tables : List (List (List String))

/-- Embedding of `DocumentParser._parse_docx`: collect non-blank paragraph
texts, then per table row the non-blank cell texts joined by `" | "`;
join everything with blank lines; fail with `DocumentParserError` when the
result strips to empty; otherwise return the text and the estimated page
count `max(1, word_count // 500)`. -/
def _parse_docx (doc : DocxDocument) : Except String (String × Nat) :=
  let paraTexts := doc.paragraphs.filter (fun p => pyStripS p ≠ "")
  let tableTexts := (doc.tables.map (fun table => table.filterMap (fun row =>
      let row_text := row.filter (fun cell => pyStripS cell ≠ "")
      if row_text ≠ [] then some (String.intercalate " | " row_text) else none))).flatten
  let full_text := String.intercalate "\n\n" (paraTexts ++ tableTexts)
  if pyStripS full_text = "" then
    Except.error "No text could be extracted from DOCX file."
  else
    let word_count := (pySplit full_text.data).length
    let estimated_pages := max 1 (word_count / 500)
    Except.ok (full_text, estimated_pages)

/-!
Embedding of the remaining `app/models/request.py` models and of
`CVAnalyzer.analyze` / `CVAnalyzer._log_analysis`
(`app/services/cv_analyzer.py`).
-/

/-- The `PositionFramework` pydantic model. -/
structure PositionFramework where
  role_title : String
  key_requirements : List String := []
  scoring_weights : ScoringWeights := ⟨40, 30, 15, 15⟩
  must_have_skills : List String := []
  nice_to_have_skills : List String := []
  experience_years_required : Option Int := none
  deriving DecidableEq, Repr

/-- `PositionFramework.model_dump()`: every key present, dict order =
field declaration order (so `scoring_weights` lists its four keys in
declaration order). -/
def PositionFramework.model_dump (pf : PositionFramework) : PFDict :=
  { role_title := some pf.role_title,
    key_requirements := some pf.key_requirements,
    scoring_weights := some
      [("technical_skills", pf.scoring_weights.technical_skills),
       ("experience", pf.scoring_weights.experience),
       ("education", pf.scoring_weights.education),
       ("cultural_fit", pf.scoring_weights.cultural_fit)],
    must_have_skills := some pf.must_have_skills,
    nice_to_have_skills := some pf.nice_to_have_skills }

/-- The `CompanyCriteria` pydantic model. -/
structure CompanyCriteria where
  company_name : String
  values : List String := []
  evaluation_guidelines : String := ""
  disqualifiers : List String := []
  preferred_backgrounds : List String := []
  deriving DecidableEq, Repr

/-- `CompanyCriteria.model_dump()`: every key present, including a
(possibly empty) `evaluation_guidelines` string. -/
def CompanyCriteria.model_dump (cc : CompanyCriteria) : CCDict :=
  { company_name := some cc.company_name,
    values := some cc.values,
    evaluation_guidelines := some cc.evaluation_guidelines,
    disqualifiers := some cc.disqualifiers }

/-- The `AnalysisConfig` pydantic model. -/
structure AnalysisConfig where
  llm_provider : String := "auto"
  prompt_version : String := "v1"
  analysis_depth : String := "detailed"
  deriving DecidableEq, Repr

/-- The `CVAnalysisRequest` pydantic model (the base64 `cv_file` payload is
represented only through the parse outcome in `AnalyzeEnv`). -/
structure CVAnalysisRequest where
  cv_filename : String
  position_framework : PositionFramework
  company_criteria : CompanyCriteria
  config : AnalysisConfig := {}
  deriving DecidableEq, Repr

/-- The row `CVAnalyzer._log_analysis` hands to
`audit_logger.log_analysis`, assembled from the request and the optional
response exactly as in the source (`"unknown"` model and `None`
tokens/score/recommendation when no response was produced; the provider
column is the *requested* `config.llm_provider`). -/
def _log_analysis_row (analysis_id : String) (request : CVAnalysisRequest)
    (response : Option CVAnalysisResponse) (processing_time_ms : Int)
    (status : String) (error_message : Option CVAnalyzerError) : LogRow :=
  { analysis_id := analysis_id,
    cv_filename := request.cv_filename,
    position_title := request.position_framework.role_title,
    company_name := request.company_criteria.company_name,
    llm_provider := request.config.llm_provider,
    llm_model := match response with
      | some r => r.metadata.model
      | none => "unknown",
    prompt_version := request.config.prompt_version,
    tokens_used := match response with
      | some r => r.metadata.tokens_used
      | none => none,
    overall_score := response.map (fun r => r.overall_score),
    recommendation := response.map (fun r => recommendationValue r.recommendation),
    processing_time_ms := processing_time_ms,
    status := status,
    error_message := error_message }

/-- Embedding of `CVAnalyzer._log_analysis`: the call to
`audit_logger.log_analysis` sits in a `try/except` that only logs a
failure, so a failing audit write (`audit_write_fails`) leaves the store
untouched and never raises. -/
def _log_analysis (audit_write_fails : Bool) (db : AuditDb) (today : String)
    (row : LogRow) : AuditDb :=
  if audit_write_fails then db else log_analysis db today row

/-- The external outcomes one `analyze` run can observe: the document
parser's answer for this payload, the factory state, the remote provider
call's answer, whether the audit write raises, plus the ambient audit
store, date, generated `analysis_id` and measured elapsed time. -/
structure AnalyzeEnv where
  parse_outcome : Except String (String × Nat)
  factory : LLMFactoryState
  gen_outcome : Except LLMProviderError LLMResponse
  audit_write_fails : Bool
  db : AuditDb
  today : String
  analysis_id : String
  processing_time_ms : Int

/-- The observable outcome of one `analyze` run: the value returned or
`CVAnalyzerError` raised, the audit-write attempts made (arguments of each
`_log_analysis` call), and the audit store afterwards. -/
structure AnalyzeOutcome where
  result : Except CVAnalyzerError CVAnalysisResponse
  audit_attempts : List LogRow
  db : AuditDb
  deriving Repr

/-- Embedding of `CVAnalyzer.analyze`: parse the document, select the
provider, build the prompt (which ignores `config.prompt_version`), call
the model, parse and validate its answer, assemble the response; each
`except` arm writes an error audit record and re-raises the mapped
`CVAnalyzerError`, the success path writes a success record; every path
attempts exactly one audit write through `_log_analysis`. -/
def analyze (env : AnalyzeEnv) (request : CVAnalysisRequest) : AnalyzeOutcome :=
  let analysis_id := env.analysis_id
  match env.parse_outcome with
  | Except.error e =>
    let err := CVAnalyzerError.documentParsing e
    let row := _log_analysis_row analysis_id request none env.processing_time_ms "error" (some err)
    { result := Except.error err, audit_attempts := [row],
      db := _log_analysis env.audit_write_fails env.db env.today row }
  | Except.ok (cv_text, page_count) =>
    match get_provider env.factory (some request.config.llm_provider) with
    | Except.error e =>
      let err := CVAnalyzerError.llmProvider e
      let row := _log_analysis_row analysis_id request none env.processing_time_ms "error" (some err)
      { result := Except.error err, audit_attempts := [row],
        db := _log_analysis env.audit_write_fails env.db env.today row }
    | Except.ok llm_provider =>
      let _prompts := build_analysis_prompt cv_text request.position_framework.model_dump
        request.company_criteria.model_dump request.config.analysis_depth
      match env.gen_outcome with
      | Except.error e =>
        let err := CVAnalyzerError.llmProvider e
        let row := _log_analysis_row analysis_id request none env.processing_time_ms "error" (some err)
        { result := Except.error err, audit_attempts := [row],
          db := _log_analysis env.audit_write_fails env.db env.today row }
      | Except.ok llm_response =>
        match _parse_llm_response llm_response.content with
        | Except.error pe =>
          let err := CVAnalyzerError.unexpectedParse pe
          let row := _log_analysis_row analysis_id request none env.processing_time_ms "error" (some err)
          { result := Except.error err, audit_attempts := [row],
            db := _log_analysis env.audit_write_fails env.db env.today row }
        | Except.ok analysis_result =>
          let built := match analysis_result with
            | Json.obj kvs =>
              _build_response analysis_id kvs llm_provider.provider_name llm_response.model
                request.config.prompt_version llm_response.tokens_used
                env.processing_time_ms page_count
            | _ => none
          match built with
          | none =>
            let err := CVAnalyzerError.unexpectedBuild
            let row := _log_analysis_row analysis_id request none env.processing_time_ms "error" (some err)
            { result := Except.error err, audit_attempts := [row],
              db := _log_analysis env.audit_write_fails env.db env.today row }
          | some response =>
            let row := _log_analysis_row analysis_id request (some response)
              env.processing_time_ms "success" none
            { result := Except.ok response, audit_attempts := [row],
              db := _log_analysis env.audit_write_fails env.db env.today row }

/-!
Claim theorems.
-/

/-- C3: every `ScoringWeights` whose four weights lie in `[0,100]`
constructs successfully (there is no sum constraint on the model), and the
frappe framework validation warns — non-fatally — exactly when the four
weights do not sum to 100. -/
theorem scoring_weights_range_and_sum_warning (t e ed c : Int)
    (ht : 0 ≤ t ∧ t ≤ 100) (he : 0 ≤ e ∧ e ≤ 100)
    (hed : 0 ≤ ed ∧ ed ≤ 100) (hc : 0 ≤ c ∧ c ≤ 100) :
    mkScoringWeights t e ed c = Except.ok ⟨t, e, ed, c⟩ ∧
    (framework_validate (some t) (some e) (some ed) (some c) = []
      ↔ t + e + ed + c = 100) := by
  constructor
  · simp only [mkScoringWeights, validate_weights, if_pos ht, if_pos he, if_pos hed, if_pos hc]
    rfl
  · unfold framework_validate
    by_cases h : t + e + ed + c = 100 <;> simp [h]

/-- Witness for C3 at the spec's scenario weights: 40/30/15/15 constructs
with no warning, and a 90-total produces a warning. -/
theorem scoring_weights_range_and_sum_warning_witness :
    (mkScoringWeights 40 30 15 15 = Except.ok ⟨40, 30, 15, 15⟩ ∧
      framework_validate (some 40) (some 30) (some 15) (some 15) = []) ∧
    framework_validate (some 40) (some 30) (some 15) (some 5) ≠ [] := by
  have h := scoring_weights_range_and_sum_warning 40 30 15 15
    (by decide) (by decide) (by decide) (by decide)
  exact ⟨⟨h.1, h.2.mpr (by decide)⟩, by decide⟩

/-- C9: whenever `_parse_docx` succeeds, the returned unit count is
`max(1, word_count // 500)` for the whitespace-split word count of the
returned concatenated text. -/
theorem docx_unit_count_estimate (doc : DocxDocument) (text : String) (n : Nat)
    (h : _parse_docx doc = Except.ok (text, n)) :
    n = max 1 ((pySplit text.data).length / 500) := by
  simp only [_parse_docx] at h
  split at h
  · cases h
  · simp only [Except.ok.injEq, Prod.mk.injEq] at h
    obtain ⟨rfl, rfl⟩ := h
    rfl

/-- Witness for C9 on a two-paragraph document. -/
theorem docx_unit_count_estimate_witness :
    1 = max 1 ((pySplit ("hello world\n\nfoo" : String).data).length / 500) :=
  docx_unit_count_estimate ⟨["hello world", "  ", "foo"], []⟩
    "hello world\n\nfoo" 1 (by rfl)

/-- C10: `log_analysis` leaves the daily token-usage aggregate unchanged
unless the status is `"success"` and `tokens_used` is truthy: error
status, a `None` token count, and a zero token count all skip the
aggregate update. -/
theorem token_usage_updated_only_on_truthy_success (db : AuditDb) (today : String)
    (row : LogRow)
    (h : row.status ≠ "success" ∨ row.tokens_used = none ∨ row.tokens_used = some 0) :
    (log_analysis db today row).token_usage = db.token_usage := by
  unfold log_analysis
  split
  · rfl
  · have hcond : (pyTruthyTokens row.tokens_used && row.status = "success") = false := by
      rcases h with h | h | h
      · simp [h]
      · simp [pyTruthyTokens, h]
      · simp [pyTruthyTokens, h]
    rw [hcond]
    simp

/-- Witness for C10: a zero-token success, a `None`-token success and an
error write each leave the aggregate unchanged. -/
theorem token_usage_updated_only_on_truthy_success_witness :
    (log_analysis ⟨[], []⟩ "2026-10-12"
      { analysis_id := "a1", cv_filename := "cv.pdf", position_title := "Engineer",
        company_name := "ACME", llm_provider := "openai", llm_model := "gpt-4",
        prompt_version := "v1", tokens_used := some 0, processing_time_ms := 5,
        overall_score := some 80, recommendation := some "yes", status := "success",
        error_message := none }).token_usage = (⟨[], []⟩ : AuditDb).token_usage ∧
    (log_analysis ⟨[], []⟩ "2026-10-12"
      { analysis_id := "a2", cv_filename := "cv.pdf", position_title := "Engineer",
        company_name := "ACME", llm_provider := "openai", llm_model := "unknown",
        prompt_version := "v1", tokens_used := some 900, processing_time_ms := 5,
        overall_score := none, recommendation := none, status := "error",
        error_message := none }).token_usage = (⟨[], []⟩ : AuditDb).token_usage :=
  ⟨token_usage_updated_only_on_truthy_success _ _ _ (Or.inr (Or.inr rfl)),
   token_usage_updated_only_on_truthy_success _ _ _ (Or.inl (by decide))⟩

/-- C8: selecting a concrete (non-`auto`, non-empty) provider name that is
not among the constructed providers fails with the `LLMProviderError`
carrying that name and the list of constructed provider names; a present
provider whose `is_available()` is false also fails with an
`LLMProviderError` carrying the name. -/
theorem provider_unavailable_selection (f : LLMFactoryState) (name : String)
    (hauto : name ≠ "auto") (hempty : name ≠ "") :
    (assocLookup f.providers name = none →
      get_provider f (some name) =
        Except.error (LLMProviderError.notAvailable name (f.providers.map Prod.fst))) ∧
    (∀ p, assocLookup f.providers name = some p → p.available = false →
      get_provider f (some name) =
        Except.error (LLMProviderError.notConfigured name)) := by
  constructor
  · intro h
    simp [get_provider, hauto, hempty, get_provider_named, h]
  · intro p hp hav
    simp [get_provider, hauto, hempty, get_provider_named, hp, hav]

/-- Witness for C8: with only an (unavailable) `openai` provider
constructed, selecting `gemini` reports it not available listing
`["openai"]`, and selecting `openai` reports it not properly
configured. -/
theorem provider_unavailable_selection_witness :
    get_provider ⟨[("openai", ⟨"openai", false⟩)], "auto"⟩ (some "gemini") =
      Except.error (LLMProviderError.notAvailable "gemini" ["openai"]) ∧
    get_provider ⟨[("openai", ⟨"openai", false⟩)], "auto"⟩ (some "openai") =
      Except.error (LLMProviderError.notConfigured "openai") :=
  ⟨(provider_unavailable_selection ⟨[("openai", ⟨"openai", false⟩)], "auto"⟩ "gemini"
      (by decide) (by decide)).1 rfl,
   (provider_unavailable_selection ⟨[("openai", ⟨"openai", false⟩)], "auto"⟩ "openai"
      (by decide) (by decide)).2 ⟨"openai", false⟩ rfl rfl⟩

/-- C4: any model answer whose cleaned content parses as a JSON object
missing one of the six required keys makes `_parse_llm_response` fail with
the missing-required-field error — no partial result is returned. -/
theorem missing_required_field_rejected (content : List Char)
    (kvs : List (String × Json)) (f : String)
    (hparse : jsonLoads (cleanContent content) = some (Json.obj kvs))
    (hreq : f ∈ required_fields) (hmiss : hasField kvs f = false) :
    ∃ g, _parse_llm_response content = Except.error (LLMParseError.missingField g) := by
  cases hg : required_fields.find? (fun x => !(hasField kvs x)) with
  | none =>
    rw [List.find?_eq_none] at hg
    have hf := hg f hreq
    simp [hmiss] at hf
  | some g =>
    refine ⟨g, ?_⟩
    unfold _parse_llm_response
    rw [hparse]
    show checkFields (Json.obj kvs) = Except.error (LLMParseError.missingField g)
    unfold checkFields firstMissingField
    dsimp only
    rw [hg]

/-- Witness for C4: an otherwise schema-shaped answer lacking
`recommendation` is rejected. -/
theorem missing_required_field_rejected_witness :
    ∃ g, _parse_llm_response
      ("\x7b\"overall_score\": 85, \"section_scores\": [], \"key_strengths\": [], \"critical_gaps\": [], \"follow_up_questions\": []\x7d" : String).data
      = Except.error (LLMParseError.missingField g) :=
  missing_required_field_rejected _
    [("overall_score", Json.num 85), ("section_scores", Json.arr []),
     ("key_strengths", Json.arr []), ("critical_gaps", Json.arr []),
     ("follow_up_questions", Json.arr [])]
    "recommendation" (by rfl) (by simp [required_fields]) (by rfl)

/-- The aggregate upsert never touches the `cv_analysis_logs` table. -/
theorem update_token_usage_logs (db : AuditDb) (today p : String) (tok : Int) :
    (_update_token_usage db today p tok).cv_analysis_logs = db.cv_analysis_logs := by
  unfold _update_token_usage
  split <;> rfl

/-- A write whose `analysis_id` is already present leaves the store
unchanged (the caught `IntegrityError` path). -/
theorem log_analysis_dup (db : AuditDb) (today : String) (row : LogRow)
    (h : db.cv_analysis_logs.any (fun r => r.analysis_id = row.analysis_id) = true) :
    log_analysis db today row = db := by
  unfold log_analysis
  rw [h]
  simp

/-- A write with a fresh `analysis_id` appends exactly its row to the log
table. -/
theorem log_analysis_fresh_logs (db : AuditDb) (today : String) (row : LogRow)
    (h : db.cv_analysis_logs.any (fun r => r.analysis_id = row.analysis_id) = false) :
    (log_analysis db today row).cv_analysis_logs = db.cv_analysis_logs ++ [row] := by
  unfold log_analysis
  rw [h]
  simp only [Bool.false_eq_true, if_false]
  split
  · split
    · rw [update_token_usage_logs]
    · rfl
  · rfl

/-- C7: a duplicate audit write (same `analysis_id`) is a no-op — nothing
is raised and neither table (in particular the token-usage aggregate) is
changed; and two successful writes with fresh distinct ids and truthy
token counts `t1`, `t2` for the same day and provider leave exactly one
aggregate row with `total_tokens = t1 + t2` and `request_count = 2`. -/
theorem audit_write_idempotent_and_aggregate (db : AuditDb) (today : String)
    (row row1 row2 : LogRow) (t1 t2 : Int)
    (hid : row1.analysis_id ≠ row2.analysis_id)
    (hp : row2.llm_provider = row1.llm_provider)
    (hs1 : row1.status = "success") (hs2 : row2.status = "success")
    (ht1 : row1.tokens_used = some t1) (ht2 : row2.tokens_used = some t2)
    (hnz1 : t1 ≠ 0) (hnz2 : t2 ≠ 0) :
    log_analysis (log_analysis db today row) today row = log_analysis db today row ∧
    (log_analysis (log_analysis ⟨[], []⟩ today row1) today row2).token_usage
      = [⟨today, row1.llm_provider, t1 + t2, 2⟩] := by
  constructor
  · cases hb : db.cv_analysis_logs.any (fun r => r.analysis_id = row.analysis_id) with
    | true => rw [log_analysis_dup db today row hb, log_analysis_dup db today row hb]
    | false =>
      apply log_analysis_dup
      rw [log_analysis_fresh_logs db today row hb]
      simp
  · have h1 : log_analysis ⟨[], []⟩ today row1
        = ⟨[row1], [⟨today, row1.llm_provider, t1, 1⟩]⟩ := by
      unfold log_analysis
      simp [pyTruthyTokens, ht1, hs1, hnz1, _update_token_usage]
    rw [h1]
    unfold log_analysis
    simp [pyTruthyTokens, ht2, hs2, hnz2, hid, hp, _update_token_usage]

/-- A sample successful audit row used by the audit-write witness. -/
def sampleSuccessRow (id : String) (tokens : Int) : LogRow :=
  { analysis_id := id, cv_filename := "cv.pdf", position_title := "Engineer",
    company_name := "ACME", llm_provider := "openai", llm_model := "gpt-4",
    prompt_version := "v1", tokens_used := some tokens, processing_time_ms := 5,
    overall_score := some 80, recommendation := some "yes", status := "success",
    error_message := none }

/-- Witness for C7 with concrete rows: a duplicate of id `a1` is a no-op,
and writes of 700 then 500 tokens aggregate to 1200 over 2 requests. -/
theorem audit_write_idempotent_and_aggregate_witness :
    log_analysis (log_analysis ⟨[], []⟩ "2026-10-12" (sampleSuccessRow "a1" 700))
        "2026-10-12" (sampleSuccessRow "a1" 700)
      = log_analysis ⟨[], []⟩ "2026-10-12" (sampleSuccessRow "a1" 700) ∧
    (log_analysis (log_analysis ⟨[], []⟩ "2026-10-12" (sampleSuccessRow "a1" 700))
        "2026-10-12" (sampleSuccessRow "a2" 500)).token_usage
      = [⟨"2026-10-12", (sampleSuccessRow "a1" 700).llm_provider, 700 + 500, 2⟩] :=
  audit_write_idempotent_and_aggregate ⟨[], []⟩ "2026-10-12"
    (sampleSuccessRow "a1" 700) (sampleSuccessRow "a1" 700) (sampleSuccessRow "a2" 500)
    700 500 (by decide) rfl rfl rfl rfl rfl (by decide) (by decide)

/-- C2 counterexample: with every optional field empty, the user prompt
renders the disqualifier slot as the literal `"None specified"` — not
`"Not specified"` as claimed — and renders a present-but-empty
`evaluation_guidelines` as the empty string. -/
theorem optional_field_placeholder_counterexample :
    renderedDisqualifiers (CompanyCriteria.model_dump { company_name := "ACME" })
      = "None specified" ∧
    renderedGuidelines (CompanyCriteria.model_dump { company_name := "ACME" }) = "" ∧
    ("None specified" : String) ≠ "Not specified" ∧
    user_prompt "CV" (PositionFramework.model_dump { role_title := "Engineer" })
        (CompanyCriteria.model_dump { company_name := "ACME" }) "detailed"
      = "Analyze the following CV against the position requirements and company criteria.\n\n=== POSITION INFORMATION ===\nRole: Engineer\n\nKey Requirements:\nNot specified\n\nMust-Have Skills: Not specified\nNice-to-Have Skills: Not specified\n\nScoring Weights:\n- Technical Skills: 40%\n- Experience: 30%\n- Education: 15%\n- Cultural Fit: 15%\n\n=== COMPANY CRITERIA ===\nCompany: ACME\nCore Values: Not specified\n\nEvaluation Guidelines:\n\n\nDisqualifiers:\nNone specified\n\n=== CANDIDATE CV ===\nCV\n\n=== ANALYSIS INSTRUCTIONS ===\n1. Evaluate the candidate across all scoring dimensions (Technical Skills, Experience, Education, Cultural Fit)\n2. Calculate weighted scores based on the provided weights\n3. Identify 3-5 key strengths with specific evidence from the CV\n4. Identify 2-4 critical gaps or concerns\n5. Generate 4-6 thoughtful follow-up interview questions\n6. Provide an overall recommendation (strong_yes, yes, maybe, no, or strong_no)\n\nAnalysis Depth: detailed\n\nRespond with ONLY the JSON structure specified in the system prompt." := by
  exact ⟨rfl, rfl, by decide, by rfl⟩

/-- C2 amended: key requirements, must-have skills, nice-to-have skills
and company values render the literal `"Not specified"` when missing or
empty; evaluation guidelines render `"Not specified"` only when the key
is missing, a present empty string renders as the empty string; missing
or empty disqualifiers render the literal `"None specified"`. -/
theorem optional_field_placeholders (pf : PFDict) (cc : CCDict) :
    ((pf.key_requirements = none ∨ pf.key_requirements = some []) →
      renderedRequirements pf = "Not specified") ∧
    ((pf.must_have_skills = none ∨ pf.must_have_skills = some []) →
      renderedMustHave pf = "Not specified") ∧
    ((pf.nice_to_have_skills = none ∨ pf.nice_to_have_skills = some []) →
      renderedNiceToHave pf = "Not specified") ∧
    ((cc.values = none ∨ cc.values = some []) →
      renderedValues cc = "Not specified") ∧
    (cc.evaluation_guidelines = none → renderedGuidelines cc = "Not specified") ∧
    (cc.evaluation_guidelines = some "" → renderedGuidelines cc = "") ∧
    ((cc.disqualifiers = none ∨ cc.disqualifiers = some []) →
      renderedDisqualifiers cc = "None specified") := by
  have hnl : String.intercalate "\n" ([] : List String) = "" := rfl
  have hcm : String.intercalate ", " ([] : List String) = "" := rfl
  refine ⟨?_, ?_, ?_, ?_, ?_, ?_, ?_⟩
  · rintro (h | h) <;>
      simp [renderedRequirements, requirements_text, h, hnl]
  · rintro (h | h) <;>
      simp [renderedMustHave, must_have, h, hcm]
  · rintro (h | h) <;>
      simp [renderedNiceToHave, nice_to_have, h, hcm]
  · rintro (h | h) <;>
      simp [renderedValues, values_text, h, hcm]
  · intro h; simp [renderedGuidelines, h]
  · intro h; simp [renderedGuidelines, h]
  · rintro (h | h) <;>
      simp [renderedDisqualifiers, h]

/-- Witness for C2 (amended) at the all-empty dumped request models. -/
theorem optional_field_placeholders_witness :
    renderedRequirements (PositionFramework.model_dump { role_title := "Engineer" })
      = "Not specified" ∧
    renderedMustHave (PositionFramework.model_dump { role_title := "Engineer" })
      = "Not specified" ∧
    renderedNiceToHave (PositionFramework.model_dump { role_title := "Engineer" })
      = "Not specified" ∧
    renderedValues (CompanyCriteria.model_dump { company_name := "ACME" })
      = "Not specified" ∧
    renderedGuidelines (CompanyCriteria.model_dump { company_name := "ACME" }) = "" ∧
    renderedDisqualifiers (CompanyCriteria.model_dump { company_name := "ACME" })
      = "None specified" :=
  have h := optional_field_placeholders
    (PositionFramework.model_dump { role_title := "Engineer" })
    (CompanyCriteria.model_dump { company_name := "ACME" })
  ⟨h.1 (Or.inr rfl), h.2.1 (Or.inr rfl), h.2.2.1 (Or.inr rfl),
   h.2.2.2.1 (Or.inr rfl), h.2.2.2.2.2.1 rfl, h.2.2.2.2.2.2 (Or.inr rfl)⟩

/-- C6: every `analyze` run — success or any failure — attempts exactly
one audit write, and the result handed to the caller is unchanged by
whether that audit write itself fails. -/
theorem audit_attempted_once_and_nonpropagating (env : AnalyzeEnv)
    (request : CVAnalysisRequest) (b : Bool) :
    (analyze env request).audit_attempts.length = 1 ∧
    (analyze { env with audit_write_fails := b } request).result
      = (analyze env request).result := by
  obtain ⟨po, fac, gen, awf, db, td, aid, ptm⟩ := env
  unfold analyze
  dsimp only
  cases po with
  | error e => exact ⟨rfl, rfl⟩
  | ok p =>
    obtain ⟨cv, pc⟩ := p
    dsimp only
    cases hgp : get_provider fac (some request.config.llm_provider) with
    | error e => exact ⟨rfl, rfl⟩
    | ok prov =>
      cases gen with
      | error e => exact ⟨rfl, rfl⟩
      | ok resp =>
        dsimp only
        cases hpr : _parse_llm_response resp.content with
        | error pe => exact ⟨rfl, rfl⟩
        | ok ar =>
          cases ar <;> try exact ⟨rfl, rfl⟩
          rename_i kvs
          dsimp only
          cases hb : _build_response aid kvs prov.provider_name resp.model
              request.config.prompt_version resp.tokens_used ptm pc with
          | none => exact ⟨rfl, rfl⟩
          | some r => exact ⟨rfl, rfl⟩

/-- `_build_response` succeeds or fails independently of the prompt
version it is handed: the version is only copied into the metadata. -/
theorem build_response_isSome_version (analysis_id : String)
    (kvs : List (String × Json)) (p m v1 v2 : String) (tk : Option Int)
    (pt : Int) (pc : Int) :
    (_build_response analysis_id kvs p m v1 tk pt pc).isSome
      = (_build_response analysis_id kvs p m v2 tk pt pc).isSome := by
  unfold _build_response
  cases assocLookup kvs "section_scores" with
  | none => rfl
  | some j =>
    cases j <;> try rfl
    rename_i xs
    try dsimp only
    cases xs.mapM parseSectionScore with
    | none => rfl
    | some ss =>
      try dsimp only
      cases (assocLookup kvs "overall_score").bind (jNumInRange 0 100) with
      | none => rfl
      | some os =>
        try dsimp only
        cases (assocLookup kvs "recommendation").bind jStr with
        | none => rfl
        | some rs =>
          try dsimp only
          cases recommendationOfString rs with
          | none => rfl
          | some recm =>
            try dsimp only
            cases (assocLookup kvs "key_strengths").bind jStrList with
            | none => rfl
            | some ks =>
              try dsimp only
              cases (assocLookup kvs "critical_gaps").bind jStrList with
              | none => rfl
              | some cg =>
                try dsimp only
                cases (assocLookup kvs "follow_up_questions").bind jStrList with
                | none => rfl
                | some fq => rfl

/-- C1 amended: `PromptManager.get_prompt` on a version that is neither
`"{v}_analysis"` nor an exact cache key fails with the error naming the
version and listing the available tags; but `CVAnalyzer._build_prompt`
never calls `get_prompt`, so the pipeline outcome is unchanged by
replacing the requested prompt version with any other string — an unknown
version does not make `analyze` fail. -/
theorem unknown_prompt_version_lookup_vs_pipeline :
    (∀ (cache : List (String × String)) (version : String),
      assocLookup cache (version ++ "_analysis") = none →
      assocLookup cache version = none →
      get_prompt cache version = Except.error ⟨version, cache.map Prod.fst⟩) ∧
    (∀ (env : AnalyzeEnv) (request : CVAnalysisRequest) (v : String),
      (analyze env
          { request with config := { request.config with prompt_version := v } }).result.isOk
        = (analyze env request).result.isOk) := by
  constructor
  · intro cache version h1 h2
    unfold get_prompt
    dsimp only
    rw [h1, h2]
  · intro env request v
    obtain ⟨po, fac, gen, awf, db, td, aid, ptm⟩ := env
    unfold analyze
    dsimp only
    cases po with
    | error e => rfl
    | ok p =>
      obtain ⟨cv, pc⟩ := p
      dsimp only
      cases hgp : get_provider fac (some request.config.llm_provider) with
      | error e => rfl
      | ok prov =>
        cases gen with
        | error e => rfl
        | ok resp =>
          dsimp only
          cases hpr : _parse_llm_response resp.content with
          | error pe => rfl
          | ok ar =>
            cases ar <;> try rfl
            rename_i kvs
            dsimp only
            have hiso := build_response_isSome_version aid kvs prov.provider_name
              resp.model v request.config.prompt_version resp.tokens_used ptm pc
            cases hv : _build_response aid kvs prov.provider_name resp.model v
                resp.tokens_used ptm pc with
            | none =>
              cases hpv : _build_response aid kvs prov.provider_name resp.model
                  request.config.prompt_version resp.tokens_used ptm pc with
              | none => rfl
              | some r => rw [hv, hpv] at hiso; simp at hiso
            | some r =>
              cases hpv : _build_response aid kvs prov.provider_name resp.model
                  request.config.prompt_version resp.tokens_used ptm pc with
              | none => rw [hv, hpv] at hiso; simp at hiso
              | some r2 => rfl

/-- A schema-conforming model answer used by concrete pipeline runs. -/
def llmJsonAnswer : String :=
  "\x7b\"overall_score\": 85, \"recommendation\": \"yes\", \"section_scores\": [\x7b\"section\": \"Technical Skills\", \"score\": 85, \"weight\": 40, \"weighted_score\": 34, \"rationale\": \"solid\"\x7d], \"key_strengths\": [\"python\"], \"critical_gaps\": [\"kubernetes\"], \"follow_up_questions\": [\"why\"]\x7d"

/-- A fully successful environment: parse succeeds, `openai` is
constructed and available, the provider returns `llmJsonAnswer`, the
audit write succeeds. -/
def analyzeEnv0 : AnalyzeEnv :=
  { parse_outcome := Except.ok ("CV TEXT", 2),
    factory := ⟨[("openai", ⟨"openai", true⟩)], "openai"⟩,
    gen_outcome := Except.ok ⟨llmJsonAnswer.data, "gpt-4", some 1000, none⟩,
    audit_write_fails := false,
    db := ⟨[], []⟩, today := "2026-10-12", analysis_id := "id-1",
    processing_time_ms := 5 }

/-- A request whose config names the unknown prompt version `"v999"`. -/
def request0 : CVAnalysisRequest :=
  { cv_filename := "resume.pdf",
    position_framework := { role_title := "Engineer" },
    company_criteria := { company_name := "ACME" },
    config := { llm_provider := "openai", prompt_version := "v999",
                analysis_depth := "detailed" } }

/-- C1 counterexample: a pipeline run requesting the unknown prompt
version `"v999"` (with an empty template cache) succeeds instead of
failing with the version-not-found error — `analyze` never consults
`get_prompt`, though `get_prompt` itself does report the error for that
version. -/
theorem unknown_prompt_version_counterexample :
    (analyze analyzeEnv0 request0).result.isOk = true ∧
    get_prompt [] "v999" = Except.error ⟨"v999", []⟩ :=
  ⟨rfl, rfl⟩

/-- The three-backquote fence as a character list. -/
def fenceChars : List Char := [backquote, backquote, backquote]

/-- `findNl` over a newline-free prefix finds the first explicit newline. -/
theorem findNl_append (l r : List Char) (h : '\n' ∉ l) :
    findNl (l ++ '\n' :: r) = some l.length := by
  induction l with
  | nil => rfl
  | cons c cs ih =>
    have hc : c ≠ '\n' := fun hq => h (hq ▸ List.mem_cons_self c cs)
    have hcs : '\n' ∉ cs := fun hq => h (List.mem_cons_of_mem c hq)
    show findNl (c :: (cs ++ '\n' :: r)) = some (cs.length + 1)
    simp only [findNl, if_neg hc, ih hcs]
    rfl

/-- `lstrip` is the identity on a string starting with a non-space. -/
theorem pyLstrip_eq_self (s : List Char) (c : Char) (h : s.head? = some c)
    (hc : isPySpace c = false) : pyLstrip s = s := by
  cases s with
  | nil => cases h
  | cons a t =>
    have : a = c := by cases h; rfl
    subst this
    simp [pyLstrip, List.dropWhile_cons, hc]

/-- `rstrip` is the identity on a string ending with a non-space. -/
theorem pyRstrip_eq_self (s : List Char) (c : Char) (h : s.getLast? = some c)
    (hc : isPySpace c = false) : pyRstrip s = s := by
  have hrev : s.reverse.head? = some c := by rw [List.head?_reverse]; exact h
  cases hs : s.reverse with
  | nil => rw [hs] at hrev; cases hrev
  | cons a t =>
    have hac : a = c := by rw [hs] at hrev; cases hrev; rfl
    subst hac
    have : pyRstrip s = ((a :: t).dropWhile isPySpace).reverse := by rw [pyRstrip, hs]
    rw [this, List.dropWhile_cons, if_neg (by simp [hc]), ← hs, List.reverse_reverse]

/-- A string starting with a non-backquote does not start with a fence. -/
theorem startsWithFence_of_head (s : List Char) (c : Char) (h : s.head? = some c)
    (hc : c ≠ backquote) : startsWithFence s = false := by
  cases s with
  | nil => cases h
  | cons a t =>
    have : a = c := by cases h; rfl
    subst this
    cases t with
    | nil => rfl
    | cons b t2 =>
      cases t2 with
      | nil => rfl
      | cons d t3 => simp [startsWithFence, hc]

/-- The cleaning step leaves an unfenced JSON-object answer unchanged. -/
theorem cleanContent_unfenced (J : List Char)
    (hHead : J.head? = some lbrace) (hLast : J.getLast? = some rbrace) :
    cleanContent J = J := by
  have hstrip : pyStrip J = J := by
    rw [pyStrip, pyLstrip_eq_self J lbrace hHead (by decide)]
    exact pyRstrip_eq_self J rbrace hLast (by decide)
  have hfence : startsWithFence J = false :=
    startsWithFence_of_head J lbrace hHead (by decide)
  unfold cleanContent
  rw [hstrip]
  simp [hfence]

/-- The cleaning step strips an opening fence line (optional language
tag) and the matching trailing fence from a wrapped JSON-object answer,
recovering the answer exactly. -/
theorem cleanContent_fenced (J lang : List Char)
    (hLast : J.getLast? = some rbrace)
    (hLang : '\n' ∉ lang) :
    cleanContent (fenceChars ++ (lang ++ ('\n' :: (J ++ ('\n' :: fenceChars))))) = J := by
  set W := fenceChars ++ (lang ++ ('\n' :: (J ++ ('\n' :: fenceChars)))) with hW
  have hWlast : W.getLast? = some backquote := by
    have hsplit : W = (fenceChars ++ (lang ++ ('\n' ::
        (J ++ ['\n', backquote, backquote])))) ++ [backquote] := by
      rw [hW]; simp [fenceChars, List.append_assoc]
    rw [hsplit, List.getLast?_concat]
  have hstripW : pyStrip W = W := by
    rw [pyStrip, pyLstrip_eq_self W backquote (by rw [hW]; rfl) (by decide)]
    exact pyRstrip_eq_self W backquote hWlast (by decide)
  have hfenceW : startsWithFence W = true := by
    rw [hW]
    show startsWithFence (backquote :: backquote :: backquote ::
      (lang ++ ('\n' :: (J ++ ('\n' :: fenceChars))))) = true
    simp [startsWithFence]
  have hmem : '\n' ∉ fenceChars ++ lang := by
    intro hm
    rcases List.mem_append.mp hm with h1 | h2
    · exact absurd h1 (by decide)
    · exact hLang h2
  have hfind : findNl W = some (fenceChars ++ lang).length := by
    rw [hW, ← List.append_assoc]
    exact findNl_append (fenceChars ++ lang) (J ++ ('\n' :: fenceChars)) hmem
  have hdrop : W.drop ((fenceChars ++ lang).length + 1) = J ++ ('\n' :: fenceChars) := by
    have hsplit2 : W = ((fenceChars ++ lang) ++ ['\n']) ++ (J ++ ('\n' :: fenceChars)) := by
      rw [hW]; simp [List.append_assoc]
    rw [hsplit2, List.drop_left' (by simp; omega)]
  have hrev : (J ++ ('\n' :: fenceChars)).reverse
      = backquote :: backquote :: backquote :: ('\n' :: J.reverse) := by
    simp [fenceChars]
  have hends : endsWithFence (J ++ ('\n' :: fenceChars)) = true := by
    rw [endsWithFence, hrev]
    simp [startsWithFence]
  have hdrop3 : ((J ++ ('\n' :: fenceChars)).reverse.drop 3).reverse = J ++ ['\n'] := by
    rw [hrev]
    simp
  have hjrev : J.reverse.dropWhile isPySpace = J.reverse := by
    have hrevh : J.reverse.head? = some rbrace := by rw [List.head?_reverse]; exact hLast
    cases hjr : J.reverse with
    | nil => rfl
    | cons a t =>
      rw [hjr] at hrevh
      have ha : a = rbrace := by cases hrevh; rfl
      subst ha
      rw [List.dropWhile_cons, if_neg (by decide)]
  have hrstr : pyRstrip (J ++ ['\n']) = J := by
    rw [pyRstrip]
    have : (J ++ ['\n']).reverse = '\n' :: J.reverse := by simp
    rw [this, List.dropWhile_cons, if_pos (by decide), hjrev, List.reverse_reverse]
  unfold cleanContent
  rw [hstripW]
  simp only [hfenceW, if_true, hfind, hdrop, hends, hdrop3, hrstr]

/-- C5: a JSON-object model answer parses to the identical structured
result whether given bare or wrapped in a fenced code block with an
optional (newline-free) language identifier and matching trailing
fence. -/
theorem fenced_answer_roundtrip (J lang : List Char)
    (hHead : J.head? = some lbrace) (hLast : J.getLast? = some rbrace)
    (hLang : '\n' ∉ lang) :
    _parse_llm_response (fenceChars ++ (lang ++ ('\n' :: (J ++ ('\n' :: fenceChars)))))
      = _parse_llm_response J := by
  unfold _parse_llm_response
  rw [cleanContent_fenced J lang hLast hLang, cleanContent_unfenced J hHead hLast]

/-- Witness for C5: the sample schema answer wrapped in a ```json fence
parses identically to the bare answer (and successfully). -/
theorem fenced_answer_roundtrip_witness :
    _parse_llm_response (fenceChars ++ (("json".data) ++ ('\n' ::
        (llmJsonAnswer.data ++ ('\n' :: fenceChars)))))
      = _parse_llm_response llmJsonAnswer.data ∧
    (_parse_llm_response llmJsonAnswer.data).isOk = true :=
  ⟨fenced_answer_roundtrip llmJsonAnswer.data "json".data
      (by decide) (by decide) (by decide), by rfl⟩

/-- Witness for C1 (amended): with only `v1_analysis` cached, `get_prompt`
on `"v2"` reports the error listing the available tag, and swapping the
pipeline request's prompt version for `"v777"` leaves the analysis
outcome's success unchanged. -/
theorem unknown_prompt_version_lookup_vs_pipeline_witness :
    get_prompt [("v1_analysis", "TEMPLATE")] "v2"
      = Except.error ⟨"v2", ["v1_analysis"]⟩ ∧
    (analyze analyzeEnv0
        { request0 with config := { request0.config with prompt_version := "v777" } }).result.isOk
      = (analyze analyzeEnv0 request0).result.isOk :=
  ⟨unknown_prompt_version_lookup_vs_pipeline.1 [("v1_analysis", "TEMPLATE")] "v2" rfl rfl,
   unknown_prompt_version_lookup_vs_pipeline.2 analyzeEnv0 request0 "v777"⟩
